import Mathlib

/-!
Verification of the data-preparation and query pipeline of the Dutch COVID
dashboard (files preparation.py and dashboard.py).

The Python pipeline is shallowly embedded: a pandas DataFrame is a `List` of
row structures, `pd.concat` is list append, boolean-mask filtering is
`List.filter`, `groupby` enumerates the distinct keys (pandas drops null
keys, modelled by `Option` keys), `pd.merge` with the left option matches each
left row against the right rows, and `np.where(col == 9999, 0, col)` is a
pointwise `if`.  Python `str(int)` is modelled by `natToString`
(decimal digits), `str.zfill` by `zfill`, `str.lower` by `lowerAscii`
(ASCII case folding; all inputs in this program are ASCII), and
`Series.dt.isocalendar().week` by `isocalendarWeek`, which follows the
CPython `datetime.isocalendar` algorithm on the proleptic Gregorian
calendar.
-/

namespace Covid

/-- Decimal digit character, `chr(48 + d)` for a digit value `d`. -/
def digitChar (d : Nat) : Char := Char.ofNat (48 + d)

/-- Decimal digits of `n`, most significant first.  The first argument is
structural fuel; `natToString` supplies enough of it.  This models Python
`str` applied to a nonnegative `int`. -/
def natDigits : Nat → Nat → List Char
  | 0, _ => []
  | fuel + 1, n =>
    if n < 10 then [digitChar n]
    else natDigits fuel (n / 10) ++ [digitChar (n % 10)]

/-- Python `str(n)` for a natural number `n`. -/
def natToString (n : Nat) : String := String.mk (natDigits (n + 1) n)

/-- Python `str(i)` for an `int` value `i` (a minus sign, then the digits). -/
def intToString (i : Int) : String :=
  if i < 0 then String.mk ('-' :: natDigits (i.natAbs + 1) i.natAbs)
  else natToString i.natAbs

/-- Python `str.zfill(w)`: left-pad with the character `0` up to width `w`. -/
def zfill (w : Nat) (s : String) : String :=
  if s.length < w then String.mk (List.replicate (w - s.length) '0' ++ s.data)
  else s

/-- ASCII lower-casing of one character, as Python `str.lower` acts on the
ASCII range (the only characters this program passes to `lower`). -/
def lowerChar (c : Char) : Char :=
  if 65 ≤ c.toNat ∧ c.toNat ≤ 90 then Char.ofNat (c.toNat + 32) else c

/-- Python `str.lower` on ASCII strings. -/
def lowerAscii (s : String) : String := String.mk (s.data.map lowerChar)

/-- The property of being a string of decimal digit characters. -/
def isDigitStr (s : String) : Prop := ∀ c ∈ s.data, 48 ≤ c.toNat ∧ c.toNat ≤ 57

instance (s : String) : Decidable (isDigitStr s) := by
  unfold isDigitStr; infer_instance

/-! Calendar arithmetic, following CPython `datetime` (proleptic Gregorian
calendar), which backs `pandas.Series.dt`. -/

/-- Gregorian leap-year test. -/
def isLeap (y : Nat) : Bool := (y % 4 == 0 && y % 100 != 0) || y % 400 == 0

/-- Number of days in a month. -/
def daysInMonth (y m : Nat) : Nat :=
  if m = 2 then (if isLeap y then 29 else 28)
  else if m = 4 ∨ m = 6 ∨ m = 9 ∨ m = 11 then 30
  else 31

/-- Days in the year before the first day of month `m`. -/
def daysBeforeMonth (y m : Nat) : Nat :=
  let leap := if isLeap y then 1 else 0
  match m with
  | 1 => 0
  | 2 => 31
  | 3 => 59 + leap
  | 4 => 90 + leap
  | 5 => 120 + leap
  | 6 => 151 + leap
  | 7 => 181 + leap
  | 8 => 212 + leap
  | 9 => 243 + leap
  | 10 => 273 + leap
  | 11 => 304 + leap
  | _ => 334 + leap

/-- Days before January 1 of year `y` counted from the calendar epoch
(day 1 is January 1 of year 1), as in CPython `_days_before_year`. -/
def daysBeforeYear (y : Nat) : Nat :=
  365 * (y - 1) + (y - 1) / 4 - (y - 1) / 100 + (y - 1) / 400

/-- A calendar date as the parsed `Date_of_statistics` value. -/
structure Date where
  year : Nat
  month : Nat
  day : Nat
deriving DecidableEq, Repr

/-- Validity of a calendar date (the dates `pandas.to_datetime` accepts lie
inside this set). -/
def Date.valid (d : Date) : Prop :=
  1 ≤ d.year ∧ d.year ≤ 9999 ∧ 1 ≤ d.month ∧ d.month ≤ 12 ∧
    1 ≤ d.day ∧ d.day ≤ daysInMonth d.year d.month

instance (d : Date) : Decidable d.valid := by
  unfold Date.valid; infer_instance

/-- Ordinal day number of a date (CPython `_ymd2ord`). -/
def toOrdinal (d : Date) : Nat :=
  daysBeforeYear d.year + daysBeforeMonth d.year d.month + d.day

/-- Ordinal of the Monday of ISO week 1 of year `y`
(CPython `_isoweek1monday`).  Euclidean `/` and `%` on `Int` coincide with
Python floor division and modulus because the divisor 7 is positive. -/
def isoweek1monday (y : Nat) : Int :=
  let firstday : Int := toOrdinal ⟨y, 1, 1⟩
  let firstweekday : Int := (firstday + 6) % 7
  let week1monday : Int := firstday - firstweekday
  if 3 < firstweekday then week1monday + 7 else week1monday

/-- ISO week number of a date, following CPython `date.isocalendar` (the
value `pandas.Series.dt.isocalendar().week` yields). -/
def isocalendarWeek (d : Date) : Int :=
  let today : Int := toOrdinal d
  let week : Int := (today - isoweek1monday d.year) / 7
  if week < 0 then (today - isoweek1monday (d.year - 1)) / 7 + 1
  else if 52 ≤ week ∧ isoweek1monday (d.year + 1) ≤ today then 1
  else week + 1

/-- The derived `Isomonth_of_statistics` column of `_clean_merged_data`:
`str(Date.dt.year) + str(Date.dt.month).zfill(2)`. -/
def Isomonth_of_statistics (d : Date) : String :=
  natToString d.year ++ zfill 2 (natToString d.month)

/-- The derived `Isoweek_of_statistics` column of `_clean_merged_data`:
`str(Date.dt.year) + str(Date.dt.isocalendar().week).zfill(2)`. -/
def Isoweek_of_statistics (d : Date) : String :=
  natToString d.year ++ zfill 2 (intToString (isocalendarWeek d))

/-! The raw case table and `DataManager._clean_case_data`. -/

/-- One row of the raw COVID case table. -/
structure CaseRow where
  Version : String
  Date_of_report : String
  Date_of_publication : String
  Province : String
  Security_region_code : String
  Security_region_name : String
  Municipal_health_service : String
  ROAZ_region : String
  Municipality_code : String
  Municipality_name : String
  Total_reported : Int
  Deceased : Int
deriving DecidableEq, Repr

/-- The non-metric identifying columns `_clean_case_data` groups by. -/
structure GroupKey where
  Version : String
  Date_of_report : String
  Date_of_publication : String
  Province : String
  Security_region_code : String
  Security_region_name : String
  Municipal_health_service : String
  ROAZ_region : String
deriving DecidableEq, Repr

/-- Projection of a case row onto the grouping columns. -/
def CaseRow.groupKey (r : CaseRow) : GroupKey :=
  ⟨r.Version, r.Date_of_report, r.Date_of_publication, r.Province,
   r.Security_region_code, r.Security_region_name,
   r.Municipal_health_service, r.ROAZ_region⟩

/-- Distinct elements of a list in order of first occurrence (the distinct
group keys a `groupby` produces; key ordering is never relied upon). -/
def dedupFirstAux {α : Type} [DecidableEq α] : List α → List α → List α
  | _, [] => []
  | seen, x :: xs =>
    if x ∈ seen then dedupFirstAux seen xs
    else x :: dedupFirstAux (x :: seen) xs

/-- Distinct elements of a list, first occurrence kept. -/
def dedupFirst {α : Type} [DecidableEq α] (l : List α) : List α :=
  dedupFirstAux [] l

/-- The three pre-merger municipalities of `_clean_case_data`. -/
def old_municipalities : List String := ["Brielle", "Hellevoetsluis", "Westvoorne"]

/-- The summed replacement row for one group of legacy-municipality rows,
rewritten to carry the synthetic municipality code and name. -/
def mergedGroupRow (rows : List CaseRow) (k : GroupKey) : CaseRow :=
  let g := rows.filter (fun r => r.groupKey = k)
  { Version := k.Version
    Date_of_report := k.Date_of_report
    Date_of_publication := k.Date_of_publication
    Province := k.Province
    Security_region_code := k.Security_region_code
    Security_region_name := k.Security_region_name
    Municipal_health_service := k.Municipal_health_service
    ROAZ_region := k.ROAZ_region
    Municipality_code := "GM1992"
    Municipality_name := "Voorne aan zee"
    Total_reported := (g.map CaseRow.Total_reported).sum
    Deceased := (g.map CaseRow.Deceased).sum }

/-- The table-wide sentinel repair applied at the end of `_clean_case_data`:
`np.where(Deceased == 9999, 0, Deceased)`. -/
def fixSentinel (r : CaseRow) : CaseRow :=
  { r with Deceased := if r.Deceased = 9999 then 0 else r.Deceased }

/-- `DataManager._clean_case_data`: the legacy-municipality rows are split
off, summed per group of identifying columns, renamed to
`Voorne aan zee` / `GM1992` and appended to the remaining rows, and then
the `Deceased == 9999` sentinel is reset to 0 over the whole table. -/
def clean_case_data (case_df : List CaseRow) : List CaseRow :=
  let old_municipality_df :=
    case_df.filter (fun r => r.Municipality_name ∈ old_municipalities)
  let keys := dedupFirst (old_municipality_df.map CaseRow.groupKey)
  let grouped_df := keys.map (mergedGroupRow old_municipality_df)
  let rest := case_df.filter (fun r => r.Municipality_name ∉ old_municipalities)
  (rest ++ grouped_df).map fixSentinel

/-! The hospitalization table and `DataManager._merge_data`. -/

/-- One row of the hospitalization table, restricted to the three columns
`_merge_data` selects from it. -/
structure HospitalRow where
  Date_of_statistics : String
  Municipality_code : String
  Hospital_admission : Int
deriving DecidableEq, Repr

/-- The hospitalization rows matching one case row on the join key.  The
`Date_of_publication` column of the case table has been renamed to
`Date_of_statistics` by `_merge_data` before the join, so the key is
`(Date_of_publication, Municipality_code)` on the case side. -/
def hospMatches (c : CaseRow) (hospital_df : List HospitalRow) : List HospitalRow :=
  hospital_df.filter (fun h =>
    h.Date_of_statistics = c.Date_of_publication ∧
      h.Municipality_code = c.Municipality_code)

/-- `DataManager._merge_data`: `pd.merge(case, hospital[[date, code,
admission]], on=[date, code], how=left)`.  Each case row yields one
output row per matching hospitalization row, or a single row with a null
`Hospital_admission` when nothing matches. -/
def merge_data (case_df : List CaseRow) (hospital_df : List HospitalRow) :
    List (CaseRow × Option Int) :=
  case_df.flatMap (fun c =>
    match hospMatches c hospital_df with
    | [] => [(c, none)]
    | ms => ms.map (fun h => (c, some h.Hospital_admission)))

/-! The canonical record, the persistence layer and the query layer. -/

/-- One canonical record as persisted by the pipeline (output schema of
`_clean_merged_data`). -/
structure CanonRow where
  Date_of_statistics : String
  Province : String
  Security_region_code : String
  Security_region_name : String
  Municipal_health_service : String
  ROAZ_region : String
  Municipality_code : String
  Municipality_name : String
  Total_reported : Int
  Deceased : Int
  Hospital_admission : Option Int
  Year_of_statistics : Nat
  Month_of_statistics : Nat
  Week_of_statistics : Nat
  Isomonth_col : String
  Isoweek_col : String
  Country : String
deriving DecidableEq, Repr

/-- The persisted files: an association of the year part of the file name
`covid_{year}.csv` with the rows the file holds. -/
def Store : Type := List (String × List CanonRow)

/-- Lookup of a persisted file by the year part of its name. -/
def findFile (year : String) : Store → Option (List CanonRow)
  | [] => none
  | (k, rows) :: rest => if k = year then some rows else findFile year rest

/-- The message of the exception the `except FileNotFoundError` branch of
`pull_data` actually raises: the branch executes `return pd.Dataframe()`,
and the `pandas` module has no attribute `Dataframe` (the class is named
`DataFrame`), so an `AttributeError` escapes to the caller right after the
notice is printed. -/
def pullDataError : String := "AttributeError: module pandas has no attribute Dataframe"

/-- `DataManager.pull_data`: reads `covid_{year.lower()}.csv` and returns
its rows; when the file is missing it prints a notice and then raises (see
`pullDataError`). -/
def pull_data (store : Store) (year : String) : Except String (List CanonRow) :=
  match findFile (lowerAscii year) store with
  | some rows => Except.ok rows
  | none => Except.error pullDataError

/-- `DataManager.filter_data`: loads the year via `pull_data(year.lower())`
and, unless the province is one of the aggregate pseudo-values, keeps only
the rows of that province.  An exception from `pull_data` propagates. -/
def filter_data (store : Store) (year province : String) :
    Except String (List CanonRow) :=
  match pull_data store (lowerAscii year) with
  | Except.error e => Except.error e
  | Except.ok df =>
      Except.ok (if province ∈ ["Netherlands", "All provinces"] then df
        else df.filter (fun r => r.Province = province))

/-- `DataManager._save_clean_data`: one file per distinct
`Year_of_statistics` value holding the rows of that year, plus the `alltime`
file holding the whole table. -/
def save_clean_data (rows : List CanonRow) : Store :=
  (dedupFirst (rows.map CanonRow.Year_of_statistics)).map
      (fun y => (natToString y, rows.filter (fun r => r.Year_of_statistics = y)))
    ++ [("alltime", rows)]

/-! `DataManager.aggregate_data`, modelled per metric column: pandas
`groupby(dim)[metrics].sum().reset_index()` computes, for each selected
metric column independently, one summed value per distinct non-null key
(`groupby` drops rows whose key is null).  `dim` reads the grouping
column of a row (`none` is a missing value) and `metric` reads one selected metric
column. -/

/-- `DataManager.aggregate_data` for one metric column: one `(key, sum)`
row per distinct non-null dimension value of the input. -/
def aggregate_data {α K : Type} [DecidableEq K] (dim : α → Option K)
    (metric : α → Int) (filtered_df : List α) : List (K × Int) :=
  (dedupFirst (filtered_df.filterMap dim)).map (fun k =>
    (k, ((filtered_df.filter (fun r => dim r = some k)).map metric).sum))

/-! `DataManager.sort_data` is not modelled: `sort_values` with the
default quicksort is unstable, so the row order it produces on tied
metric values is an internal detail of the sorting routine of the
underlying array library, not determined by the code of this repository,
and no deterministic embedding of it can be justified from the source. -/

/-! The aggregation-dimension selection of `PlotTemplate.aggregate_data`
(dashboard.py). -/

/-- The grouping column `PlotTemplate.aggregate_data` passes to
`DataManager.aggregate_data`, decided from the province selection and the
municipality/month toggles. -/
def aggregate_dimension (province : String) (municipality month : Bool) : String :=
  if province = "Netherlands" ∧ month = false then "Country"
  else if municipality then "Municipality_name"
  else if month then "Month_of_statistics"
  else "Province"

/-! Concrete tables used to instantiate the statements below. -/

/-- A raw case row for the legacy municipality Brielle with the suppressed
`Deceased` sentinel. -/
def c1Brielle : CaseRow :=
  { Version := "3", Date_of_report := "2023-01-02 10:00",
    Date_of_publication := "2023-01-01", Province := "Zuid-Holland",
    Security_region_code := "VR17", Security_region_name := "Rotterdam-Rijnmond",
    Municipal_health_service := "GGD Rotterdam-Rijnmond",
    ROAZ_region := "Traumacentrum Zuid-West", Municipality_code := "GM0501",
    Municipality_name := "Brielle", Total_reported := 5, Deceased := 9999 }

/-- A raw case row for the legacy municipality Hellevoetsluis sharing the
group key of `c1Brielle`. -/
def c1Hellevoetsluis : CaseRow :=
  { c1Brielle with
    Municipality_code := "GM0530"
    Municipality_name := "Hellevoetsluis"
    Total_reported := 3
    Deceased := 1 }

/-- The two-row raw case table of the repaired-scenario claim. -/
def c1Input : List CaseRow := [c1Brielle, c1Hellevoetsluis]

/-- The single row `_clean_case_data` produces from `c1Input`: the
`Deceased` sentinel is summed as 9999 during the aggregation, and the sum
10000 escapes the later `9999 ↦ 0` replacement. -/
def c1MergedRow : CaseRow :=
  { c1Brielle with
    Municipality_code := "GM1992"
    Municipality_name := "Voorne aan zee"
    Total_reported := 8
    Deceased := 10000 }

/-- A Westvoorne row with the suppressed sentinel, used against the
plain-sentinel claim. -/
def c5Westvoorne : CaseRow :=
  { c1Brielle with
    Municipality_code := "GM0614"
    Municipality_name := "Westvoorne"
    Total_reported := 2
    Deceased := 9999 }

/-- A Hellevoetsluis row sharing the group key of `c5Westvoorne`. -/
def c5Hellevoetsluis : CaseRow :=
  { c1Brielle with
    Municipality_code := "GM0530"
    Municipality_name := "Hellevoetsluis"
    Total_reported := 6
    Deceased := 2 }

/-- A raw case table whose only sentinel row belongs to a legacy
municipality. -/
def c5Input : List CaseRow := [c5Westvoorne, c5Hellevoetsluis]

/-- A non-legacy case row carrying the suppressed sentinel. -/
def c5Utrecht : CaseRow :=
  { c1Brielle with
    Province := "Utrecht"
    Security_region_code := "VR09"
    Security_region_name := "Utrecht"
    Municipal_health_service := "GGD regio Utrecht"
    ROAZ_region := "Traumazorgnetwerk Midden-Nederland"
    Municipality_code := "GM0344"
    Municipality_name := "Utrecht"
    Total_reported := 11
    Deceased := 9999 }

/-- A repaired case row used as the left side of the merge examples. -/
def c3Case : CaseRow :=
  { c1Brielle with
    Municipality_code := "GM0344"
    Municipality_name := "Utrecht"
    Total_reported := 4
    Deceased := 0 }

/-- Two hospitalization rows carrying the same join key, both matching
`c3Case`. -/
def c3HospDup : List HospitalRow :=
  [{ Date_of_statistics := "2023-01-01", Municipality_code := "GM0344",
     Hospital_admission := 2 },
   { Date_of_statistics := "2023-01-01", Municipality_code := "GM0344",
     Hospital_admission := 7 }]

/-- A one-row hospitalization table matching `c3Case`. -/
def c3wHosp : List HospitalRow :=
  [{ Date_of_statistics := "2023-01-01", Municipality_code := "GM0344",
     Hospital_admission := 2 }]

/-- A repaired case row matching nothing in `c3wHosp`. -/
def c3wUnmatched : CaseRow :=
  { c3Case with Municipality_code := "GM0599", Municipality_name := "Rotterdam" }

/-- A canonical record with the query-relevant columns filled in. -/
def mkCanon (province : String) (year : Nat) (total : Int) : CanonRow :=
  { Date_of_statistics := "2022-03-05", Province := province,
    Security_region_code := "VR00", Security_region_name := province,
    Municipal_health_service := "GGD", ROAZ_region := "ROAZ",
    Municipality_code := "GM0000", Municipality_name := "Stad",
    Total_reported := total, Deceased := 0, Hospital_admission := none,
    Year_of_statistics := year, Month_of_statistics := 3,
    Week_of_statistics := 9, Isomonth_col := "202203",
    Isoweek_col := "202209", Country := "Netherlands" }

/-- A canonical table spanning two years and two provinces. -/
def c7Rows : List CanonRow :=
  [mkCanon "Utrecht" 2021 1, mkCanon "Gelderland" 2021 2,
   mkCanon "Utrecht" 2022 3, mkCanon "Gelderland" 2022 4]

/-- The store persisted from `c7Rows` (files 2021, 2022 and alltime). -/
def c7Store : Store := save_clean_data c7Rows

/-- A one-row table whose grouping value is missing. -/
def c6Table : List (Option String × Int) := [(none, 3)]

/-- A three-row table over two provinces with no missing grouping values. -/
def c6wTable : List (Option String × Int) :=
  [(some "Utrecht", 3), (some "Gelderland", 4), (some "Utrecht", 5)]

/-- A table whose null-dimension row carries a metric value of zero. -/
def c10Table : List (Option String × Int) := [(none, 0)]

/-- A table with one null-dimension row carrying a positive metric value. -/
def c10wTable : List (Option String × Int) := [(none, 5), (some "Utrecht", 2)]

/-! Lemmas about decimal digit strings. -/

theorem digitChar_toNat (d : Nat) (h : d < 10) : (digitChar d).toNat = 48 + d := by
  interval_cases d <;> decide

theorem natDigits_digits (fuel : Nat) :
    ∀ n : Nat, ∀ c ∈ natDigits fuel n, 48 ≤ c.toNat ∧ c.toNat ≤ 57 := by
  induction fuel with
  | zero => intro n c hc; simp [natDigits] at hc
  | succ fuel ih =>
    intro n c hc
    by_cases h : n < 10
    · simp [natDigits, h] at hc
      subst hc
      rw [digitChar_toNat n h]
      omega
    · simp only [natDigits, if_neg h, List.mem_append, List.mem_singleton] at hc
      rcases hc with hc | hc
      · exact ih _ c hc
      · subst hc
        rw [digitChar_toNat _ (Nat.mod_lt n (by omega))]
        omega

theorem natDigits_length_1 (fuel n : Nat) (hf : 1 ≤ fuel) (h : n < 10) :
    (natDigits fuel n).length = 1 := by
  cases fuel with
  | zero => omega
  | succ fuel => simp [natDigits, h]

theorem natDigits_length_2 (fuel n : Nat) (hf : 2 ≤ fuel) (h1 : 10 ≤ n) (h2 : n < 100) :
    (natDigits fuel n).length = 2 := by
  cases fuel with
  | zero => omega
  | succ fuel =>
    simp only [natDigits, if_neg (by omega : ¬ n < 10), List.length_append,
      List.length_singleton]
    rw [natDigits_length_1 fuel (n / 10) (by omega) (by omega)]

theorem natDigits_length_3 (fuel n : Nat) (hf : 3 ≤ fuel) (h1 : 100 ≤ n) (h2 : n < 1000) :
    (natDigits fuel n).length = 3 := by
  cases fuel with
  | zero => omega
  | succ fuel =>
    simp only [natDigits, if_neg (by omega : ¬ n < 10), List.length_append,
      List.length_singleton]
    rw [natDigits_length_2 fuel (n / 10) (by omega) (by omega) (by omega)]

theorem natDigits_length_4 (fuel n : Nat) (hf : 4 ≤ fuel) (h1 : 1000 ≤ n) (h2 : n < 10000) :
    (natDigits fuel n).length = 4 := by
  cases fuel with
  | zero => omega
  | succ fuel =>
    simp only [natDigits, if_neg (by omega : ¬ n < 10), List.length_append,
      List.length_singleton]
    rw [natDigits_length_3 fuel (n / 10) (by omega) (by omega) (by omega)]

theorem natToString_length_4 (n : Nat) (h1 : 1000 ≤ n) (h2 : n ≤ 9999) :
    (natToString n).length = 4 :=
  natDigits_length_4 (n + 1) n (by omega) h1 (by omega)

theorem natToString_length_le_2 (n : Nat) (h : n ≤ 99) :
    1 ≤ (natToString n).length ∧ (natToString n).length ≤ 2 := by
  by_cases h10 : n < 10
  · rw [show (natToString n).length = 1 from natDigits_length_1 (n + 1) n (by omega) h10]
    omega
  · rw [show (natToString n).length = 2 from
      natDigits_length_2 (n + 1) n (by omega) (by omega) (by omega)]
    omega

theorem natToString_digits (n : Nat) : isDigitStr (natToString n) := by
  intro c hc
  exact natDigits_digits (n + 1) n c hc

theorem intToString_of_nonneg (i : Int) (h : 0 ≤ i) :
    intToString i = natToString i.natAbs := by
  unfold intToString
  rw [if_neg (by omega)]

theorem zfill_length (w : Nat) (s : String) : (zfill w s).length = max w s.length := by
  unfold zfill
  split
  · show (List.replicate (w - s.length) '0' ++ s.data).length = max w s.length
    rw [List.length_append, List.length_replicate]
    have : s.data.length = s.length := rfl
    omega
  · omega

theorem zfill_digits (w : Nat) (s : String) (h : isDigitStr s) : isDigitStr (zfill w s) := by
  unfold zfill
  split
  · intro c hc
    have hc2 : c ∈ List.replicate (w - s.length) '0' ++ s.data := hc
    rw [List.mem_append] at hc2
    rcases hc2 with hc2 | hc2
    · rw [List.eq_of_mem_replicate hc2]
      decide
    · exact h c hc2
  · exact h

theorem isDigitStr_append (s t : String) (hs : isDigitStr s) (ht : isDigitStr t) :
    isDigitStr (s ++ t) := by
  intro c hc
  rw [String.data_append, List.mem_append] at hc
  rcases hc with hc | hc
  · exact hs c hc
  · exact ht c hc

/-! Bounds on the calendar functions. -/

theorem daysBeforeMonth_add_le (y m : Nat) (h1 : 1 ≤ m) (h2 : m ≤ 12) :
    daysBeforeMonth y m + daysInMonth y m ≤ 366 := by
  interval_cases m <;>
    cases hL : isLeap y <;>
      simp [daysBeforeMonth, daysInMonth, hL]

theorem toOrdinal_bounds (d : Date) (h : d.valid) :
    daysBeforeYear d.year + 1 ≤ toOrdinal d ∧
      toOrdinal d ≤ daysBeforeYear d.year + 366 := by
  obtain ⟨h1, h2, h3, h4, h5, h6⟩ := h
  have hub := daysBeforeMonth_add_le d.year d.month h3 h4
  unfold toOrdinal
  omega

theorem toOrdinal_jan1 (y : Nat) : toOrdinal ⟨y, 1, 1⟩ = daysBeforeYear y + 1 := by
  simp [toOrdinal, daysBeforeMonth]

theorem daysBeforeYear_succ (y : Nat) (h : 1 ≤ y) :
    daysBeforeYear y + 365 ≤ daysBeforeYear (y + 1) ∧
      daysBeforeYear (y + 1) ≤ daysBeforeYear y + 366 := by
  unfold daysBeforeYear
  constructor <;> omega

theorem isoweek1monday_bounds (y : Nat) :
    (daysBeforeYear y : Int) - 2 ≤ isoweek1monday y ∧
      isoweek1monday y ≤ (daysBeforeYear y : Int) + 4 := by
  simp only [isoweek1monday, toOrdinal_jan1]
  push_cast
  split <;> omega

theorem isocalendarWeek_bounds (d : Date) (hv : d.valid) (hy : 2 ≤ d.year) :
    0 ≤ isocalendarWeek d ∧ isocalendarWeek d ≤ 99 := by
  have hOrd := toOrdinal_bounds d hv
  have hW1 := isoweek1monday_bounds d.year
  have hW1p := isoweek1monday_bounds (d.year - 1)
  have hMon := daysBeforeYear_succ (d.year - 1) (by omega)
  rw [show d.year - 1 + 1 = d.year from by omega] at hMon
  simp only [isocalendarWeek]
  split
  · constructor <;> omega
  · split
    · omega
    · constructor <;> omega

/-! Lemmas about `dedupFirst` and grouped sums. -/

theorem mem_dedupFirstAux {α : Type} [DecidableEq α] (l : List α) :
    ∀ (seen : List α) (a : α), a ∈ dedupFirstAux seen l ↔ a ∈ l ∧ a ∉ seen := by
  induction l with
  | nil => intro seen a; simp [dedupFirstAux]
  | cons x xs ih =>
    intro seen a
    simp only [dedupFirstAux]
    split
    case isTrue hx =>
      rw [ih seen a]
      constructor
      · rintro ⟨h1, h2⟩
        exact ⟨List.mem_cons_of_mem x h1, h2⟩
      · rintro ⟨h1, h2⟩
        rcases List.mem_cons.mp h1 with rfl | h1
        · exact absurd hx h2
        · exact ⟨h1, h2⟩
    case isFalse hx =>
      by_cases hax : a = x
      · subst hax
        simp [hx]
      · simp only [List.mem_cons, hax, false_or]
        rw [ih (x :: seen) a]
        simp [List.mem_cons, hax]

theorem nodup_dedupFirstAux {α : Type} [DecidableEq α] (l : List α) :
    ∀ seen : List α, (dedupFirstAux seen l).Nodup := by
  induction l with
  | nil => intro seen; simp [dedupFirstAux]
  | cons x xs ih =>
    intro seen
    simp only [dedupFirstAux]
    split
    · exact ih seen
    · rw [List.nodup_cons]
      refine ⟨?_, ih (x :: seen)⟩
      rw [mem_dedupFirstAux]
      rintro ⟨_, h2⟩
      exact h2 (List.mem_cons_self x seen)

theorem mem_dedupFirst {α : Type} [DecidableEq α] (l : List α) (a : α) :
    a ∈ dedupFirst l ↔ a ∈ l := by
  rw [dedupFirst, mem_dedupFirstAux]
  simp

theorem nodup_dedupFirst {α : Type} [DecidableEq α] (l : List α) :
    (dedupFirst l).Nodup :=
  nodup_dedupFirstAux l []

theorem sum_map_filter_split {α : Type} (p : α → Bool) (f : α → Int) (l : List α) :
    ((l.filter p).map f).sum + ((l.filter (fun a => ! p a)).map f).sum
      = (l.map f).sum := by
  induction l with
  | nil => simp
  | cons x xs ih =>
    cases hx : p x <;> simp [List.filter_cons, hx] <;> omega

theorem sum_groups {α K : Type} [DecidableEq K] (dim : α → Option K) (metric : α → Int)
    (keys : List K) :
    ∀ df : List α, keys.Nodup → (∀ r ∈ df, ∃ k ∈ keys, dim r = some k) →
      (keys.map (fun k =>
          ((df.filter (fun r => dim r = some k)).map metric).sum)).sum
        = (df.map metric).sum := by
  induction keys with
  | nil =>
    intro df _ hcov
    have hnil : df = [] := by
      cases df with
      | nil => rfl
      | cons r rs =>
        obtain ⟨k, hk, _⟩ := hcov r (List.mem_cons_self r rs)
        simp at hk
    subst hnil
    simp
  | cons k ks ih =>
    intro df hnd hcov
    obtain ⟨hk, hnd2⟩ := List.nodup_cons.mp hnd
    have hsplit := sum_map_filter_split (fun r => decide (dim r = some k)) metric df
    have htail : ∀ k2 ∈ ks,
        df.filter (fun r => decide (dim r = some k2))
          = (df.filter (fun r => ! decide (dim r = some k))).filter
              (fun r => decide (dim r = some k2)) := by
      intro k2 hk2
      rw [List.filter_filter]
      apply List.filter_congr
      intro a _
      by_cases hd : dim a = some k2
      · have hne : k2 ≠ k := fun hcontra => hk (hcontra ▸ hk2)
        simp [hd, hne]
      · simp [hd]
    have hcov2 : ∀ r ∈ df.filter (fun r => ! decide (dim r = some k)),
        ∃ k2 ∈ ks, dim r = some k2 := by
      intro r hr
      obtain ⟨hr1, hr2⟩ := List.mem_filter.mp hr
      obtain ⟨k2, hk2, hdim⟩ := hcov r hr1
      rcases List.mem_cons.mp hk2 with rfl | hk2
      · simp [hdim] at hr2
      · exact ⟨k2, hk2, hdim⟩
    rw [List.map_cons, List.sum_cons]
    have hmapeq : ks.map (fun k2 =>
          ((df.filter (fun r => dim r = some k2)).map metric).sum)
        = ks.map (fun k2 =>
          (((df.filter (fun r => ! decide (dim r = some k))).filter
              (fun r => dim r = some k2)).map metric).sum) := by
      apply List.map_congr_left
      intro k2 hk2
      rw [htail k2 hk2]
    rw [hmapeq, ih _ hnd2 hcov2]
    omega

theorem aggregate_data_sum {α K : Type} [DecidableEq K] (dim : α → Option K)
    (metric : α → Int) (df : List α) :
    ((aggregate_data dim metric df).map Prod.snd).sum
        + ((df.filter (fun r => dim r = none)).map metric).sum
      = (df.map metric).sum := by
  have hsplit := sum_map_filter_split (fun r => decide (dim r = none)) metric df
  have hcov : ∀ r ∈ df.filter (fun r => ! decide (dim r = none)),
      ∃ k ∈ dedupFirst (df.filterMap dim), dim r = some k := by
    intro r hr
    obtain ⟨hr1, hr2⟩ := List.mem_filter.mp hr
    simp only [Bool.not_eq_eq_eq_not, Bool.not_true, decide_eq_false_iff_not] at hr2
    obtain ⟨k, hk⟩ := Option.ne_none_iff_exists.mp hr2
    refine ⟨k, ?_, hk.symm⟩
    rw [mem_dedupFirst, List.mem_filterMap]
    exact ⟨r, hr1, hk.symm⟩
  have hgroups := sum_groups dim metric (dedupFirst (df.filterMap dim))
      (df.filter (fun r => ! decide (dim r = none)))
      (nodup_dedupFirst _) hcov
  · have hfeq : ∀ k : K,
        df.filter (fun r => decide (dim r = some k))
          = (df.filter (fun r => ! decide (dim r = none))).filter
              (fun r => decide (dim r = some k)) := by
      intro k
      rw [List.filter_filter]
      apply List.filter_congr
      intro a _
      by_cases hd : dim a = some k
      · simp [hd]
      · simp [hd]
    unfold aggregate_data
    rw [List.map_map]
    have hmapeq : (dedupFirst (df.filterMap dim)).map
          (Prod.snd ∘ fun k =>
            (k, ((df.filter (fun r => dim r = some k)).map metric).sum))
        = (dedupFirst (df.filterMap dim)).map (fun k =>
            (((df.filter (fun r => ! decide (dim r = none))).filter
                (fun r => dim r = some k)).map metric).sum) := by
      apply List.map_congr_left
      intro k _
      show ((df.filter (fun r => dim r = some k)).map metric).sum = _
      rw [hfeq k]
    rw [hmapeq, hgroups]
    omega

/-! Lemmas about `merge_data`. -/

theorem hospMatches_length_le_one (c : CaseRow) (hospital_df : List HospitalRow)
    (h : (hospital_df.map
        (fun x => (x.Date_of_statistics, x.Municipality_code))).Nodup) :
    (hospMatches c hospital_df).length ≤ 1 := by
  induction hospital_df with
  | nil => simp [hospMatches]
  | cons x xs ih =>
    rw [List.map_cons, List.nodup_cons] at h
    obtain ⟨hx, hxs⟩ := h
    by_cases hpx : x.Date_of_statistics = c.Date_of_publication ∧
        x.Municipality_code = c.Municipality_code
    · have hrest : hospMatches c xs = [] := by
        rw [hospMatches, List.filter_eq_nil_iff]
        intro a ha hpa
        simp only [decide_eq_true_eq] at hpa
        exact hx (List.mem_map.mpr ⟨a, ha,
          by rw [hpa.1, hpa.2, hpx.1, hpx.2]⟩)
      show (List.filter _ (x :: xs)).length ≤ 1
      rw [List.filter_cons, if_pos (by simpa using hpx)]
      have : List.filter _ xs = hospMatches c xs := rfl
      rw [this, hrest]
      simp
    · simp only [hospMatches, List.filter_cons] at ih ⊢
      rw [if_neg (by simpa using hpx)]
      exact ih hxs

theorem merge_data_cons (c : CaseRow) (cs : List CaseRow)
    (hospital_df : List HospitalRow) :
    merge_data (c :: cs) hospital_df
      = (match hospMatches c hospital_df with
          | [] => [(c, none)]
          | ms => ms.map (fun h => (c, some h.Hospital_admission)))
        ++ merge_data cs hospital_df := by
  rfl

theorem merge_data_length (case_df : List CaseRow) (hospital_df : List HospitalRow)
    (h : (hospital_df.map
        (fun x => (x.Date_of_statistics, x.Municipality_code))).Nodup) :
    (merge_data case_df hospital_df).length = case_df.length := by
  induction case_df with
  | nil => rfl
  | cons c cs ih =>
    rw [merge_data_cons, List.length_append, ih, List.length_cons]
    have hle := hospMatches_length_le_one c hospital_df h
    cases hms : hospMatches c hospital_df with
    | nil => simp [Nat.add_comm]
    | cons m ms =>
      rw [hms] at hle
      simp only [List.length_cons] at hle
      simp only [List.length_map, List.length_cons]
      omega

theorem merge_data_unmatched (case_df : List CaseRow) (hospital_df : List HospitalRow)
    (c : CaseRow) (hc : c ∈ case_df) (hm : hospMatches c hospital_df = []) :
    (c, (none : Option Int)) ∈ merge_data case_df hospital_df := by
  rw [merge_data, List.mem_flatMap]
  refine ⟨c, hc, ?_⟩
  rw [hm]
  simp

theorem merge_data_fst (case_df : List CaseRow) (hospital_df : List HospitalRow)
    (p : CaseRow × Option Int) (hp : p ∈ merge_data case_df hospital_df) :
    p.1 ∈ case_df := by
  rw [merge_data, List.mem_flatMap] at hp
  obtain ⟨c, hc, hpc⟩ := hp
  cases hms : hospMatches c hospital_df with
  | nil =>
    rw [hms] at hpc
    simp at hpc
    rw [hpc]
    exact hc
  | cons m ms =>
    rw [hms] at hpc
    simp only [List.mem_map] at hpc
    obtain ⟨hrow, _, hpe⟩ := hpc
    rw [← hpe]
    exact hc

/-! Claim theorems. -/

/-- C1, counterexample: on the two-row table
`{Brielle: Total_reported=5, Deceased=9999}, {Hellevoetsluis:
Total_reported=3, Deceased=1}` sharing one group key, `_clean_case_data`
does not produce a single row with `Deceased = 0`: the sentinel is summed
during the aggregation and the sum 10000 escapes the later `9999 ↦ 0`
replacement. -/
theorem C1_counterexample :
    ¬ ((clean_case_data c1Input).length = 1 ∧
        ∃ r ∈ clean_case_data c1Input, r.Municipality_name = "Voorne aan zee" ∧
          r.Municipality_code = "GM1992" ∧ r.Total_reported = 8 ∧ r.Deceased = 0) := by
  decide

/-- C1, amended: repairing that two-row table produces a single output row
with `Municipality_name = "Voorne aan zee"`, `Municipality_code = "GM1992"`,
`Total_reported = 8` and `Deceased = 10000` (the suppressed 9999 is summed
with 1 before the table-wide sentinel replacement, and 10000 is not
replaced). -/
theorem C1_repaired_scenario :
    clean_case_data c1Input = [c1MergedRow] ∧
      c1MergedRow.Municipality_name = "Voorne aan zee" ∧
      c1MergedRow.Municipality_code = "GM1992" ∧
      c1MergedRow.Total_reported = 8 ∧ c1MergedRow.Deceased = 10000 := by
  decide

/-- C2, code behaviour at the failing input: requesting a year with no
persisted file makes `pull_data` (and hence `filter_data`) raise — the
`except FileNotFoundError` branch executes `return pd.Dataframe()`, and
`pandas` has no attribute `Dataframe`, so an `AttributeError` escapes to
the caller instead of an empty table being returned. -/
theorem C2_missing_year_raises :
    pull_data c7Store "2099" = Except.error pullDataError ∧
      filter_data c7Store "2099" "Netherlands" = Except.error pullDataError := by
  constructor <;> rfl

/-- C3, counterexample: a left merge against a hospitalization table with
two rows sharing one join key duplicates the matching case row, so the
merged row count (2) differs from the case row count (1). -/
theorem C3_counterexample :
    (merge_data [c3Case] c3HospDup).length = 2 ∧
      ¬ (merge_data [c3Case] c3HospDup).length = ([c3Case] : List CaseRow).length := by
  decide

/-- C3, amended: when the hospitalization table has at most one row per
`(Date_of_statistics, Municipality_code)` join key (the documented shape
of that source), the merged row count equals the repaired case row count,
every merged row stems from a case row (unmatched hospitalization rows are
dropped), and every unmatched case row appears with a null
`Hospital_admission`. -/
theorem C3_unique_key_merge (case_df : List CaseRow) (hospital_df : List HospitalRow)
    (h : (hospital_df.map
        (fun x => (x.Date_of_statistics, x.Municipality_code))).Nodup) :
    (merge_data case_df hospital_df).length = case_df.length ∧
      (∀ p ∈ merge_data case_df hospital_df, p.1 ∈ case_df) ∧
      (∀ c ∈ case_df, hospMatches c hospital_df = [] →
        (c, (none : Option Int)) ∈ merge_data case_df hospital_df) :=
  ⟨merge_data_length case_df hospital_df h,
   fun p hp => merge_data_fst case_df hospital_df p hp,
   fun c hc hm => merge_data_unmatched case_df hospital_df c hc hm⟩

/-- C3, witness: the amended merge theorem applied to a concrete two-row
case table and a one-row hospitalization table with distinct keys. -/
theorem C3_witness :
    ((c3wHosp.map (fun x => (x.Date_of_statistics, x.Municipality_code))).Nodup) ∧
      ((merge_data [c3Case, c3wUnmatched] c3wHosp).length
          = ([c3Case, c3wUnmatched] : List CaseRow).length ∧
        (∀ p ∈ merge_data [c3Case, c3wUnmatched] c3wHosp,
          p.1 ∈ ([c3Case, c3wUnmatched] : List CaseRow)) ∧
        (∀ c ∈ ([c3Case, c3wUnmatched] : List CaseRow),
          hospMatches c c3wHosp = [] →
            (c, (none : Option Int)) ∈ merge_data [c3Case, c3wUnmatched] c3wHosp)) :=
  ⟨by decide, C3_unique_key_merge [c3Case, c3wUnmatched] c3wHosp (by decide)⟩

/-- C4, counterexample: for the valid date 0999-01-01 the derived
`Isomonth_of_statistics` is the 5-character string `99901`, because
`astype(str)` does not zero-pad the year to 4 digits. -/
theorem C4_counterexample :
    Date.valid ⟨999, 1, 1⟩ ∧ 1 ≤ (999 : Nat) ∧ (999 : Nat) ≤ 9999 ∧
      Isomonth_of_statistics ⟨999, 1, 1⟩ = "99901" ∧
      ¬ (Isomonth_of_statistics ⟨999, 1, 1⟩).length = 6 := by
  decide

/-- C4, amended: for every valid date with year between 1000 and 9999
(a range containing every date representable by the datetime type in use),
the derived `Isomonth_of_statistics` and `Isoweek_of_statistics` are
6-character decimal-digit strings, namely the 4-digit year followed by the
2-character zero-padded month (respectively ISO week). -/
theorem C4_six_char_fields (d : Date) (hv : d.valid) (hy : 1000 ≤ d.year) :
    (Isomonth_of_statistics d).length = 6 ∧ isDigitStr (Isomonth_of_statistics d) ∧
      (Isoweek_of_statistics d).length = 6 ∧ isDigitStr (Isoweek_of_statistics d) ∧
      (natToString d.year).length = 4 ∧
      (zfill 2 (natToString d.month)).length = 2 ∧
      (zfill 2 (intToString (isocalendarWeek d))).length = 2 := by
  obtain ⟨h1, h2, h3, h4, h5, h6⟩ := hv
  have hylen := natToString_length_4 d.year hy h2
  have hmlen := natToString_length_le_2 d.month (by omega)
  have hmz : (zfill 2 (natToString d.month)).length = 2 := by
    rw [zfill_length]
    omega
  have hwb := isocalendarWeek_bounds d ⟨h1, h2, h3, h4, h5, h6⟩ (by omega)
  have hwnn := intToString_of_nonneg (isocalendarWeek d) hwb.1
  have hwabs : (isocalendarWeek d).natAbs ≤ 99 := by omega
  have hwlen := natToString_length_le_2 (isocalendarWeek d).natAbs hwabs
  have hwz : (zfill 2 (intToString (isocalendarWeek d))).length = 2 := by
    rw [hwnn, zfill_length]
    omega
  refine ⟨?_, ?_, ?_, ?_, hylen, hmz, hwz⟩
  · rw [Isomonth_of_statistics, String.length_append, hylen, hmz]
  · exact isDigitStr_append _ _ (natToString_digits d.year)
      (zfill_digits 2 _ (natToString_digits d.month))
  · rw [Isoweek_of_statistics, String.length_append, hylen, hwz]
  · refine isDigitStr_append _ _ (natToString_digits d.year) ?_
    rw [hwnn]
    exact zfill_digits 2 _ (natToString_digits (isocalendarWeek d).natAbs)

/-- C4, witness: the amended field-format theorem applied to the concrete
valid date 2022-03-05. -/
theorem C4_witness :
    Date.valid ⟨2022, 3, 5⟩ ∧ 1000 ≤ (2022 : Nat) ∧
      ((Isomonth_of_statistics ⟨2022, 3, 5⟩).length = 6 ∧
        isDigitStr (Isomonth_of_statistics ⟨2022, 3, 5⟩) ∧
        (Isoweek_of_statistics ⟨2022, 3, 5⟩).length = 6 ∧
        isDigitStr (Isoweek_of_statistics ⟨2022, 3, 5⟩) ∧
        (natToString (Date.mk 2022 3 5).year).length = 4 ∧
        (zfill 2 (natToString (Date.mk 2022 3 5).month)).length = 2 ∧
        (zfill 2 (intToString (isocalendarWeek ⟨2022, 3, 5⟩))).length = 2) :=
  ⟨by decide, by decide, C4_six_char_fields ⟨2022, 3, 5⟩ (by decide) (by decide)⟩

/-- C5, counterexample: a raw table whose only `Deceased = 9999` row
belongs to a legacy municipality is repaired to a table containing no row
with `Deceased = 0` at all — the sentinel row is summed into the merged
municipality before the sentinel replacement. -/
theorem C5_counterexample :
    (c5Input.filter (fun r => r.Deceased = 9999)).length = 1 ∧
      ¬ ∃ r ∈ clean_case_data c5Input, r.Deceased = 0 := by
  decide

/-- C5, amended: for every raw case table, every input row that does not
belong to one of the three legacy municipalities reappears in the repaired
output with its `Deceased` value replaced by 0 when it was 9999 and kept
unchanged otherwise; legacy rows are first summed per group, the
replacement applying to the summed value, and no row of the repaired
output carries the 9999 sentinel. -/
theorem C5_sentinel_nonlegacy (case_df : List CaseRow) (r : CaseRow)
    (hr : r ∈ case_df) (hn : r.Municipality_name ∉ old_municipalities) :
    fixSentinel r ∈ clean_case_data case_df ∧
      (r.Deceased ≠ 9999 → fixSentinel r = r) ∧
      (r.Deceased = 9999 → (fixSentinel r).Deceased = 0) ∧
      ∀ s ∈ clean_case_data case_df, s.Deceased ≠ 9999 := by
  refine ⟨?_, ?_, ?_, ?_⟩
  · show fixSentinel r ∈ (List.filter _ case_df ++ _).map fixSentinel
    rw [List.map_append, List.mem_append]
    left
    exact List.mem_map.mpr ⟨r, List.mem_filter.mpr ⟨hr, by simpa using hn⟩, rfl⟩
  · intro hne
    rw [fixSentinel, if_neg hne]
  · intro heq
    rw [fixSentinel]
    simp [heq]
  · intro s hs
    simp only [clean_case_data] at hs
    obtain ⟨t, _, hts⟩ := List.mem_map.mp hs
    rw [← hts]
    show ¬ (if t.Deceased = 9999 then (0 : Int) else t.Deceased) = 9999
    split
    case isTrue => omega
    case isFalse hne => exact hne

/-- C5, witness: the amended sentinel theorem applied to a one-row table
holding a non-legacy row with the suppressed sentinel. -/
theorem C5_witness :
    c5Utrecht ∈ [c5Utrecht] ∧ c5Utrecht.Municipality_name ∉ old_municipalities ∧
      (fixSentinel c5Utrecht ∈ clean_case_data [c5Utrecht] ∧
        (c5Utrecht.Deceased ≠ 9999 → fixSentinel c5Utrecht = c5Utrecht) ∧
        (c5Utrecht.Deceased = 9999 → (fixSentinel c5Utrecht).Deceased = 0) ∧
        ∀ s ∈ clean_case_data [c5Utrecht], s.Deceased ≠ 9999) :=
  ⟨by decide, by decide,
   C5_sentinel_nonlegacy [c5Utrecht] c5Utrecht (by decide) (by decide)⟩

/-- C6, counterexample: on a table whose single row has a missing grouping
value, the aggregated output is empty, so the metric total over the output
(0) differs from the total over the input (3) — `groupby` drops null
keys. -/
theorem C6_counterexample :
    (∃ r ∈ c6Table, Prod.fst r = (none : Option String)) ∧
      ((aggregate_data Prod.fst Prod.snd c6Table).map Prod.snd).sum = 0 ∧
      (c6Table.map Prod.snd).sum = 3 ∧
      ¬ ((aggregate_data Prod.fst Prod.snd c6Table).map Prod.snd).sum
          = (c6Table.map Prod.snd).sum := by
  decide

/-- C6, amended: for every input table whose grouping column has no
missing values, aggregation is a partition — the total of each metric over the
aggregated output equals its total over the input, the output keys are
pairwise distinct, and a key occurs in the output exactly when it is
observed in the input. -/
theorem C6_partition {α K : Type} [DecidableEq K] (dim : α → Option K)
    (metric : α → Int) (df : List α) (h : ∀ r ∈ df, dim r ≠ none) :
    ((aggregate_data dim metric df).map Prod.snd).sum = (df.map metric).sum ∧
      ((aggregate_data dim metric df).map Prod.fst).Nodup ∧
      (∀ k : K, k ∈ (aggregate_data dim metric df).map Prod.fst ↔
        some k ∈ df.map dim) := by
  have hnull : df.filter (fun r => dim r = none) = [] := by
    rw [List.filter_eq_nil_iff]
    intro a ha
    simpa using h a ha
  have hsum := aggregate_data_sum dim metric df
  rw [hnull] at hsum
  simp only [List.map_nil, List.sum_nil, add_zero] at hsum
  have hfst : (aggregate_data dim metric df).map Prod.fst
      = dedupFirst (df.filterMap dim) := by
    rw [aggregate_data, List.map_map]
    have hid : (Prod.fst ∘ fun k : K =>
        (k, ((df.filter (fun r => dim r = some k)).map metric).sum)) = id := rfl
    rw [hid, List.map_id]
  refine ⟨hsum, ?_, ?_⟩
  · rw [hfst]
    exact nodup_dedupFirst _
  · intro k
    rw [hfst, mem_dedupFirst, List.mem_filterMap]
    constructor
    · rintro ⟨r, hr, hk⟩
      exact List.mem_map.mpr ⟨r, hr, hk⟩
    · intro h2
      obtain ⟨r, hr, hk⟩ := List.mem_map.mp h2
      exact ⟨r, hr, hk⟩

/-- C6, witness: the amended partition theorem applied to a three-row
table over the two provinces Utrecht and Gelderland. -/
theorem C6_witness :
    (∀ r ∈ c6wTable, Prod.fst r ≠ (none : Option String)) ∧
      (((aggregate_data Prod.fst Prod.snd c6wTable).map Prod.snd).sum
          = (c6wTable.map Prod.snd).sum ∧
        ((aggregate_data Prod.fst Prod.snd c6wTable).map Prod.fst).Nodup ∧
        (∀ k : String, k ∈ (aggregate_data Prod.fst Prod.snd c6wTable).map Prod.fst ↔
          some k ∈ c6wTable.map Prod.fst)) :=
  ⟨by decide, C6_partition Prod.fst Prod.snd c6wTable (by decide)⟩

/-- C7: when the file of the requested year loads, `filter_data` returns the
loaded rows restricted to the given province unless the province is one of
the pseudo-values `Netherlands` / `All provinces`, in which case the
loaded table is returned unrestricted; and on the store persisted from
`c7Rows` the query `filter_data "2022" "Utrecht"` returns exactly the one
Utrecht row of year 2022. -/
theorem C7_filter_by_province (store : Store) (year province : String)
    (tbl : List CanonRow) (h : pull_data store (lowerAscii year) = Except.ok tbl) :
    (province ∉ ["Netherlands", "All provinces"] →
      filter_data store year province
          = Except.ok (tbl.filter (fun r => r.Province = province)) ∧
        ∀ r : CanonRow, r ∈ tbl.filter (fun r => r.Province = province) ↔
          r ∈ tbl ∧ r.Province = province) ∧
      (province ∈ ["Netherlands", "All provinces"] →
        filter_data store year province = Except.ok tbl) ∧
      filter_data c7Store "2022" "Utrecht" = Except.ok [mkCanon "Utrecht" 2022 3] := by
  refine ⟨?_, ?_, by rfl⟩
  · intro hp
    constructor
    · rw [filter_data, h]
      show Except.ok (if province ∈ ["Netherlands", "All provinces"] then tbl
          else tbl.filter (fun r => r.Province = province)) = _
      rw [if_neg hp]
    · intro r
      rw [List.mem_filter]
      simp
  · intro hp
    rw [filter_data, h]
    show Except.ok (if province ∈ ["Netherlands", "All provinces"] then tbl
        else tbl.filter (fun r => r.Province = province)) = _
    rw [if_pos hp]

/-- C7, witness: the filter theorem applied to the persisted store
`c7Store`, the year 2022 and the province Utrecht. -/
theorem C7_witness :
    pull_data c7Store (lowerAscii "2022")
        = Except.ok [mkCanon "Utrecht" 2022 3, mkCanon "Gelderland" 2022 4] ∧
      (("Utrecht" : String) ∉ ["Netherlands", "All provinces"] →
        filter_data c7Store "2022" "Utrecht"
            = Except.ok (([mkCanon "Utrecht" 2022 3,
                mkCanon "Gelderland" 2022 4]).filter
                  (fun r => r.Province = "Utrecht")) ∧
          ∀ r : CanonRow, r ∈ ([mkCanon "Utrecht" 2022 3,
                mkCanon "Gelderland" 2022 4]).filter
                  (fun r => r.Province = "Utrecht") ↔
            r ∈ [mkCanon "Utrecht" 2022 3, mkCanon "Gelderland" 2022 4] ∧
              r.Province = "Utrecht") ∧
        (("Utrecht" : String) ∈ ["Netherlands", "All provinces"] →
          filter_data c7Store "2022" "Utrecht"
              = Except.ok [mkCanon "Utrecht" 2022 3, mkCanon "Gelderland" 2022 4]) ∧
        filter_data c7Store "2022" "Utrecht" = Except.ok [mkCanon "Utrecht" 2022 3] :=
  ⟨by rfl, C7_filter_by_province c7Store "2022" "Utrecht"
    [mkCanon "Utrecht" 2022 3, mkCanon "Gelderland" 2022 4] (by rfl)⟩

/-- C8: the aggregation dimension chosen by `PlotTemplate.aggregate_data`
follows the claimed precedence — `Country` when the province selection is
`Netherlands` and no month grouping was requested; otherwise
`Municipality_name` when a municipality breakdown was requested; otherwise
`Month_of_statistics` when a month breakdown was requested; otherwise
`Province` — and exactly one of the four dimensions results for every
input combination. -/
theorem C8_dimension_precedence (province : String) (municipality month : Bool) :
    (province = "Netherlands" ∧ month = false →
      aggregate_dimension province municipality month = "Country") ∧
      (¬ (province = "Netherlands" ∧ month = false) → municipality = true →
        aggregate_dimension province municipality month = "Municipality_name") ∧
      (¬ (province = "Netherlands" ∧ month = false) → municipality = false →
        month = true →
          aggregate_dimension province municipality month = "Month_of_statistics") ∧
      (¬ (province = "Netherlands" ∧ month = false) → municipality = false →
        month = false →
          aggregate_dimension province municipality month = "Province") ∧
      (aggregate_dimension province municipality month = "Country" ∨
        aggregate_dimension province municipality month = "Municipality_name" ∨
        aggregate_dimension province municipality month = "Month_of_statistics" ∨
        aggregate_dimension province municipality month = "Province") := by
  by_cases hp : province = "Netherlands" <;> cases municipality <;> cases month <;>
    simp [aggregate_dimension, hp]

/-- C8, witness: the precedence theorem applied to the national selection
with both breakdown toggles off. -/
theorem C8_witness :
    ((("Netherlands" : String) = "Netherlands" ∧ (false : Bool) = false →
      aggregate_dimension "Netherlands" false false = "Country") ∧
      (¬ (("Netherlands" : String) = "Netherlands" ∧ (false : Bool) = false) →
        (false : Bool) = true →
          aggregate_dimension "Netherlands" false false = "Municipality_name") ∧
      (¬ (("Netherlands" : String) = "Netherlands" ∧ (false : Bool) = false) →
        (false : Bool) = false → (false : Bool) = true →
          aggregate_dimension "Netherlands" false false = "Month_of_statistics") ∧
      (¬ (("Netherlands" : String) = "Netherlands" ∧ (false : Bool) = false) →
        (false : Bool) = false → (false : Bool) = false →
          aggregate_dimension "Netherlands" false false = "Province") ∧
      (aggregate_dimension "Netherlands" false false = "Country" ∨
        aggregate_dimension "Netherlands" false false = "Municipality_name" ∨
        aggregate_dimension "Netherlands" false false = "Month_of_statistics" ∨
        aggregate_dimension "Netherlands" false false = "Province")) :=
  C8_dimension_precedence "Netherlands" false false

/-- C10, counterexample: on a table whose single row has a missing
grouping value and a metric value of 0, the metric total over the
aggregated output equals the total over the input, so the total is not
strictly smaller even though the dimension column has missing values. -/
theorem C10_counterexample :
    (∃ r ∈ c10Table, Prod.fst r = (none : Option String)) ∧
      ((aggregate_data Prod.fst Prod.snd c10Table).map Prod.snd).sum
          = (c10Table.map Prod.snd).sum ∧
      ¬ ((aggregate_data Prod.fst Prod.snd c10Table).map Prod.snd).sum
          < (c10Table.map Prod.snd).sum := by
  decide

/-- C10, amended: rows with a missing grouping value contribute to no
group and produce no output row — the output total plus the metric total
of the dropped null-dimension rows equals the input total, every output
key is observed in some row, and the output total is strictly smaller than
the input total exactly when the dropped rows carry a positive metric
total. -/
theorem C10_null_rows_dropped {α K : Type} [DecidableEq K] (dim : α → Option K)
    (metric : α → Int) (df : List α) :
    ((aggregate_data dim metric df).map Prod.snd).sum
          + ((df.filter (fun r => dim r = none)).map metric).sum
        = (df.map metric).sum ∧
      (∀ p ∈ aggregate_data dim metric df, ∃ r ∈ df, dim r = some p.1) ∧
      (0 < ((df.filter (fun r => dim r = none)).map metric).sum →
        ((aggregate_data dim metric df).map Prod.snd).sum < (df.map metric).sum) := by
  have hsum := aggregate_data_sum dim metric df
  refine ⟨hsum, ?_, by omega⟩
  intro p hp
  rw [aggregate_data] at hp
  obtain ⟨k, hk, hkp⟩ := List.mem_map.mp hp
  rw [mem_dedupFirst, List.mem_filterMap] at hk
  obtain ⟨r, hr, hrk⟩ := hk
  subst hkp
  exact ⟨r, hr, hrk⟩

/-- C10, witness: the null-dropping theorem applied to a table with one
null-dimension row of positive metric value and one Utrecht row. -/
theorem C10_witness :
    ((aggregate_data Prod.fst Prod.snd c10wTable).map Prod.snd).sum
          + ((c10wTable.filter (fun r => Prod.fst r = none)).map Prod.snd).sum
        = (c10wTable.map Prod.snd).sum ∧
      (∀ p ∈ aggregate_data Prod.fst Prod.snd c10wTable,
        ∃ r ∈ c10wTable, Prod.fst r = some p.1) ∧
      (0 < ((c10wTable.filter (fun r => Prod.fst r = none)).map Prod.snd).sum →
        ((aggregate_data Prod.fst Prod.snd c10wTable).map Prod.snd).sum
          < (c10wTable.map Prod.snd).sum) :=
  C10_null_rows_dropped Prod.fst Prod.snd c10wTable

end Covid
